import Mathlib

set_option maxRecDepth 100000

/-!
Verification of the Tax-Calculator validation script
`taxcalc/validation/csv_in.py` (synthetic record generator).

The script is embedded shallowly:

* a pandas `DataFrame` becomes an ordered association list
  `List (String × List ℚ)` (column name ↦ column values, in column order;
  CSV values are modelled as exact rationals);
* `numpy.int64` casts (`astype(np.int64)`) become `toInt64`, the wrap-around
  conversion of a mathematical integer into the two's-complement 64-bit range;
* `Series.round(decimals=0)` becomes `roundHalfEven` (numpy rounds halfway
  cases to the nearest even integer);
* the shared numpy random stream is modelled by an abstract stream
  `z : ℕ → ℚ` of standard-normal draws together with a running position:
  `np.random.normal(loc, scale, size=num)` consumes `num` consecutive draws
  and yields `loc + scale * z i` for each of them.
-/

namespace CsvIn

/-- `astype(np.int64)`: wrap an integer into `[-2^63, 2^63)` (two's complement). -/
def toInt64 (z : ℤ) : ℤ :=
  (z + 2 ^ 63) % 2 ^ 64 - 2 ^ 63

/-- numpy `round(decimals=0)`: round to the nearest integer, ties to even. -/
def roundHalfEven (q : ℚ) : ℤ :=
  let f := ⌊q⌋
  if q - f < 1 / 2 then f
  else if (1 : ℚ) / 2 < q - f then f + 1
  else if f % 2 = 0 then f else f + 1

/-- A pandas DataFrame: ordered list of named columns of rational values. -/
abbrev DataFrame := List (String × List ℚ)

/-- `xdf[name]`: first column with the given name, if any. -/
def getCol : DataFrame → String → Option (List ℚ)
  | [], _ => none
  | (n, v) :: rest, name => if n = name then some v else getCol rest name

/-- Number of rows of the DataFrame (length of its first column). -/
def numRows : DataFrame → ℕ
  | [] => 0
  | (_, v) :: _ => v.length

/-- Replace one column entry when its name matches (helper for `setCol`). -/
def setEntry (name : String) (vals : List ℚ) (p : String × List ℚ) :
    String × List ℚ :=
  if p.1 = name then (name, vals) else p

/-- `xdf[name] = vals`: replace the named column in place, or append it. -/
def setCol (df : DataFrame) (name : String) (vals : List ℚ) : DataFrame :=
  if df.any (fun p => p.1 = name) then df.map (setEntry name vals)
  else df ++ [(name, vals)]

/-- `SKIP_VARS` (csv_in.py lines 47-50, `DEBUG = False` branch): variables
whose values are not to be randomized. -/
def SKIP_VARS : List String :=
  ["RECID", "MARS", "DSI", "MIDR", "FLPDYR",
   "age_head", "age_spouse",
   "XTOT", "EIC", "n24", "f2441",
   "f6251"]

/-- `DROP_VARS` (csv_in.py lines 39-41, `DEBUG = False` branch): variables not
included in the output file.  Python iterates the set in unspecified order; the
model fixes the source-listed order (the claims do not depend on the order). -/
def DROP_VARS : List String :=
  ["filer", "s006", "cmbtp",
   "nu05", "nu13", "elderly_dependent",
   "e09700", "e09800", "e09900", "e11200"]

/-- `ANNUAL_DRIFT = 0.03` (csv_in.py line 52). -/
def ANNUAL_DRIFT : ℚ := 3 / 100

/-- `NORM_STD_DEV = 0.25` (csv_in.py line 53). -/
def NORM_STD_DEV : ℚ := 1 / 4

/-- `nmean = 1.0 + ANNUAL_DRIFT * (taxyear - 2009)` (csv_in.py line 73). -/
def nmeanFor (taxyear : ℤ) : ℚ :=
  1 + ANNUAL_DRIFT * ((taxyear : ℚ) - 2009)

/-- `oldint.min() < 0` (csv_in.py line 89).  On an empty column pandas yields
NaN and `NaN < 0` is false, hence the `[]` case. -/
def minIsNeg : List ℤ → Bool
  | [] => false
  | h :: t => decide (t.foldl min h < 0)

/-- Rows of `raw = (oldint + (oldint * rfactor).round(decimals=0)).astype(np.int64)`
(csv_in.py lines 85-88), where row `i` of the column uses the noise factor
`nmean + nsdev * z i` (its draw from `np.random.normal(nmean, nsdev, num)`). -/
def rawVals (nmean nsdev : ℚ) (z : ℕ → ℚ) : ℕ → List ℤ → List ℤ
  | _, [] => []
  | i, oi :: rest =>
      toInt64 (oi + roundHalfEven ((oi : ℚ) * (nmean + nsdev * z i))) ::
        rawVals nmean nsdev z (i + 1) rest

/-- Body of the per-column randomization loop (csv_in.py lines 82-92, 97) for a
non-skipped column whose rows draw noise at stream positions `pos`, `pos+1`, …:
round to `int64` (`oldint`), add the rounded noise add-on (`raw`), and clip the
column at zero unless its `oldint` minimum is negative. -/
def randomizeColumn (nmean nsdev : ℚ) (z : ℕ → ℚ) (pos : ℕ) (old : List ℚ) :
    List ℚ :=
  let oldint := old.map (fun q => toInt64 (roundHalfEven q))
  let raw := rawVals nmean nsdev z pos oldint
  let new := if minIsNeg oldint then raw else raw.map (fun v => max v 0)
  new.map (fun (v : ℤ) => (v : ℚ))

/-- The `for varname in list(xdf)` loop of `randomize_data` (csv_in.py lines
77-97): skipped columns are kept and consume no draws; every other column is
randomized and consumes `num` draws from the shared stream. -/
def randomizeCols (nmean nsdev : ℚ) (z : ℕ → ℚ) (num : ℕ) :
    DataFrame → ℕ → DataFrame
  | [], _ => []
  | (name, vals) :: rest, pos =>
      if name ∈ SKIP_VARS then
        (name, vals) :: randomizeCols nmean nsdev z num rest pos
      else
        (name, randomizeColumn nmean nsdev z pos vals) ::
          randomizeCols nmean nsdev z num rest (pos + num)

/-- `randomize_data(xdf, taxyear, rnseed)` (csv_in.py lines 56-100): set
`FLPDYR` to the tax year, take `num = xdf['FLPDYR'].size`, reseed the stream
(modelled by starting the abstract stream `z` at position 0), and run the
per-column loop. -/
def randomize_data (df : DataFrame) (taxyear : ℤ) (z : ℕ → ℚ) : DataFrame :=
  let xdf := setCol df "FLPDYR" (List.replicate (numRows df) ((taxyear : ℤ) : ℚ))
  let num := ((getCol xdf "FLPDYR").getD []).length
  randomizeCols (nmeanFor taxyear) NORM_STD_DEV z num xdf 0

/-- pandas/numpy int64 arithmetic wraps modulo `2^64`.  The randomized data
reaching `constrain_data` is integer-valued (each non-skipped column was
stored through `astype(np.int64)`), so a sum of two such columns is wrapped
into the int64 range.  An integer-valued rational (`den = 1`) is wrapped via
`toInt64`; a non-integral value can only live in a float column, whose pandas
addition is not wrapped, so it is left unchanged. -/
def wrapInt64 (q : ℚ) : ℚ :=
  if q.den = 1 then ((toInt64 q.num : ℤ) : ℚ) else q

/-- `constrain_data(xdf)` (csv_in.py lines 103-123): in debug mode a no-op;
otherwise recompute the three split-aggregate totals as the element-wise sum
of their part columns — pandas int64 addition, i.e. the exact sum wrapped
into the int64 range (`wrapInt64`) — and raise the two dominance columns to
the element-wise maximum (`np.maximum`, which never overflows) of themselves
and their related columns.  A missing operand column raises a pandas
`KeyError`, modelled as `none`.  The repair takes no noise stream, so it is
deterministic in its input. -/
def constrain_data (debug : Bool) (xdf : DataFrame) : Option DataFrame :=
  if debug then some xdf else do
    let df1 := setCol xdf "e00200"
      (List.zipWith (fun a b => wrapInt64 (a + b)) (← getCol xdf "e00200p")
        (← getCol xdf "e00200s"))
    let df2 := setCol df1 "e00900"
      (List.zipWith (fun a b => wrapInt64 (a + b)) (← getCol df1 "e00900p")
        (← getCol df1 "e00900s"))
    let df3 := setCol df2 "e02100"
      (List.zipWith (fun a b => wrapInt64 (a + b)) (← getCol df2 "e02100p")
        (← getCol df2 "e02100s"))
    let df4 := setCol df3 "e00600"
      (List.zipWith max (← getCol df3 "e00600") (← getCol df3 "e00650"))
    let df5 := setCol df4 "e01500"
      (List.zipWith max (← getCol df4 "e01500") (← getCol df4 "e01700"))
    some df5

/-- One `xdf.drop(var, axis=1)` (csv_in.py line 148): removing a column that
is not present raises a pandas `KeyError`, modelled as an error result. -/
def dropCol (xdf : DataFrame) (var : String) : Except String DataFrame :=
  if xdf.any (fun p => p.1 = var) then
    Except.ok (xdf.filter (fun p => p.1 != var))
  else Except.error ("KeyError: " ++ var ++ " not found in axis")

/-- The drop loop of `main` (csv_in.py lines 143-148): every variable of the
drop set must be in the downstream schema registry `usable`
(`Records.USABLE_READ_VARS`, an external collaborator modelled as a
parameter); a variable outside the registry stops the run with the
configuration error message (and return code 1); a variable passing the check
is dropped from the DataFrame. -/
def mainDropLoop (usable : List String) :
    List String → DataFrame → Except String DataFrame
  | [], xdf => Except.ok xdf
  | var :: rest, xdf =>
      if var ∈ usable then
        match dropCol xdf var with
        | Except.error e => Except.error e
        | Except.ok xdf1 => mainDropLoop usable rest xdf1
      else Except.error ("ERROR: variable " ++ var ++ " already dropped")

/-- `xdf.sample(n=ssize, random_state=rnseed)` (csv_in.py line 165): pandas
draws `ssize` distinct rows without replacement, the choice fully determined
by the seed; the seed's row ordering is modelled by the abstract permutation
`perm` of the row indices, of which the first `ssize` entries are taken.
Requesting more rows than the population raises a ValueError, modelled as
`none`. -/
def sampleRows (xdf : DataFrame) (ssize : ℕ) (perm : List ℕ) :
    Option DataFrame :=
  if ssize ≤ numRows xdf then
    some (xdf.map (fun c => (c.1, (perm.take ssize).map (fun i => c.2.getD i 0))))
  else none

/-- The sampling step of `main` (csv_in.py lines 159-166): in debug mode keep
every row, otherwise sample `ssize` rows; then re-key `RECID` with
`[rid + 1 for rid in range(sample_size)]`. -/
def mainSampleStep (debug : Bool) (perm : List ℕ) (ssize : ℕ)
    (xdf : DataFrame) : Option DataFrame :=
  if debug then
    some (setCol xdf "RECID"
      ((List.range (numRows xdf)).map (fun rid => ((rid : ℕ) : ℚ) + 1)))
  else
    match sampleRows xdf ssize perm with
    | none => none
    | some xxdf => some (setCol xxdf "RECID"
        ((List.range ssize).map (fun rid => ((rid : ℕ) : ℚ) + 1)))

/-- The pipeline body of `main` after reading puf.csv (csv_in.py lines
143-172, with the shipped configuration `DEBUG = False`): drop the configured
variables (validated against the registry), randomize, constrain, then sample
and re-key.  `Except.error` carries the message reported before the non-zero
return; `Except.ok` is the DataFrame written to the output file (return 0). -/
def main_run (usable : List String) (z : ℕ → ℚ) (perm : List ℕ)
    (taxyear : ℤ) (ssize : ℕ) (df : DataFrame) : Except String DataFrame :=
  match mainDropLoop usable DROP_VARS df with
  | Except.error e => Except.error e
  | Except.ok xdf =>
      let rdf := randomize_data xdf taxyear z
      match constrain_data false rdf with
      | none => Except.error "KeyError"
      | some cdf =>
          match mainSampleStep false perm ssize cdf with
          | none => Except.error
              "ValueError: cannot take a larger sample than population"
          | some xxdf => Except.ok xxdf

/-- `MAX_YEAR = 2023` (csv_in.py line 27). -/
def MAX_YEAR : ℤ := 2023

/-- `MAX_SEED = 999999999` (csv_in.py line 28). -/
def MAX_SEED : ℤ := 999999999

/-- `MAX_SIZE = 100000` (csv_in.py line 29). -/
def MAX_SIZE : ℤ := 100000

/-- One line written to the error stream by the `__main__` block. -/
inductive ErrLine
  | yearErr (y : ℤ)
  | seedErr (sd : ℤ)
  | sizeErr (sz : ℤ)
  | usage
deriving DecidableEq

/-- The exact text of each stderr line (csv_in.py lines 198-211). -/
def renderErrLine : ErrLine → String
  | ErrLine.yearErr y =>
      "ERROR: YEAR " ++ toString y ++ " not in [2013," ++ toString MAX_YEAR ++
        "] range"
  | ErrLine.seedErr sd =>
      "ERROR: SEED " ++ toString sd ++ " not in [1," ++ toString MAX_SEED ++
        "] range"
  | ErrLine.sizeErr sz =>
      "ERROR: SIZE " ++ toString sz ++ " not in [1," ++ toString MAX_SIZE ++
        "] range"
  | ErrLine.usage => "USAGE: python csv_in.py --help"

/-- Outcome of the `__main__` block (csv_in.py lines 196-215): the error lines
written, whether `main` was invoked, and the exit code. -/
structure CliOutcome where
  errLines : List ErrLine
  ranPipeline : Bool
  rcode : ℤ

/-- Argument validation and dispatch of the `__main__` block (csv_in.py lines
196-215): each of YEAR, SEED, SIZE is range-checked independently and a
specific error line is written for each violation; if any check failed, a
usage reminder is printed and the exit code is 1 without running `main`;
otherwise `main` runs and its return code (a parameter here, since it depends
on the file system) is the exit code. -/
def cliMain (year seed size : ℤ) (mainRcode : ℤ) : CliOutcome :=
  let yearBad : Bool := decide (year < 2013) || decide (year > MAX_YEAR)
  let seedBad : Bool := decide (seed < 1) || decide (seed > MAX_SEED)
  let sizeBad : Bool := decide (size < 1) || decide (size > MAX_SIZE)
  let errs :=
    (if yearBad then [ErrLine.yearErr year] else []) ++
    (if seedBad then [ErrLine.seedErr seed] else []) ++
    (if sizeBad then [ErrLine.sizeErr size] else [])
  if yearBad || seedBad || sizeBad then
    { errLines := errs ++ [ErrLine.usage], ranPipeline := false, rcode := 1 }
  else
    { errLines := errs, ranPipeline := true, rcode := mainRcode }

/-- A single-row input frame in the shape of puf.csv, except that the skip
variable `f6251` is absent: all drop variables and all constraint columns are
present, amounts are zero. -/
def noF6251Frame : DataFrame :=
  [("RECID", [7]), ("FLPDYR", [2013]),
   ("filer", [0]), ("s006", [0]), ("cmbtp", [0]), ("nu05", [0]),
   ("nu13", [0]), ("elderly_dependent", [0]), ("e09700", [0]),
   ("e09800", [0]), ("e09900", [0]), ("e11200", [0]),
   ("e00200", [0]), ("e00200p", [0]), ("e00200s", [0]),
   ("e00900", [0]), ("e00900p", [0]), ("e00900s", [0]),
   ("e02100", [0]), ("e02100p", [0]), ("e02100s", [0]),
   ("e00600", [0]), ("e00650", [0]), ("e01500", [0]), ("e01700", [0])]

/-- A single-row frame with all columns read by `constrain_data`. -/
def constrainFrame : DataFrame :=
  [("e00200p", [3]), ("e00200s", [4]), ("e00900p", [1]), ("e00900s", [2]),
   ("e02100p", [5]), ("e02100s", [6]), ("e00600", [2]), ("e00650", [9]),
   ("e01500", [8]), ("e01700", [3]), ("e00200", [0]), ("e00900", [0]),
   ("e02100", [0])]

/-- The result of `constrain_data` on `constrainFrame`. -/
def constrainFrameOut : DataFrame :=
  [("e00200p", [3]), ("e00200s", [4]), ("e00900p", [1]), ("e00900s", [2]),
   ("e02100p", [5]), ("e02100s", [6]), ("e00600", [9]), ("e00650", [9]),
   ("e01500", [8]), ("e01700", [3]), ("e00200", [7]), ("e00900", [3]),
   ("e02100", [11])]

/-- A single-row frame for `constrain_data` whose wage parts are each `2^62`,
so that their int64 sum overflows. -/
def overflowFrame : DataFrame :=
  [("e00200p", [(((2 : ℤ) ^ 62 : ℤ) : ℚ)]),
   ("e00200s", [(((2 : ℤ) ^ 62 : ℤ) : ℚ)]),
   ("e00900p", [0]), ("e00900s", [0]), ("e02100p", [0]), ("e02100s", [0]),
   ("e00600", [0]), ("e00650", [0]), ("e01500", [0]), ("e01700", [0]),
   ("e00200", [0]), ("e00900", [0]), ("e02100", [0])]

/-- The result of `constrain_data` on `overflowFrame`: the stored total is the
wrapped sum `-2^63`, not the exact sum `2^63`. -/
def overflowFrameOut : DataFrame :=
  [("e00200p", [(((2 : ℤ) ^ 62 : ℤ) : ℚ)]),
   ("e00200s", [(((2 : ℤ) ^ 62 : ℤ) : ℚ)]),
   ("e00900p", [0]), ("e00900s", [0]), ("e02100p", [0]), ("e02100s", [0]),
   ("e00600", [0]), ("e00650", [0]), ("e01500", [0]), ("e01700", [0]),
   ("e00200", [((-((2 : ℤ) ^ 63) : ℤ) : ℚ)]), ("e00900", [0]),
   ("e02100", [0])]

/-- Number of non-skipped columns strictly before the named column: these are
exactly the columns that consume draws from the shared noise stream before the
named column is reached in the `randomize_data` loop. -/
def countNonSkipBefore : DataFrame → String → ℕ
  | [], _ => 0
  | (m, _) :: rest, name =>
      if m = name then 0
      else (if m ∈ SKIP_VARS then 0 else 1) + countNonSkipBefore rest name

/-- The randomized column as claim C3 (amended) describes it: every row gets
the value `oldint + round(oldint * rfactor)` truncated to `int64`, and the
whole column is clamped at zero exactly when the minimum of the rounded,
truncated (`oldint`) values is nonnegative — a single decision per column. -/
def specColumnOldintMin (nmean nsdev : ℚ) (z : ℕ → ℚ) (pos : ℕ)
    (old : List ℚ) : List ℚ :=
  let oldint := old.map (fun q => toInt64 (roundHalfEven q))
  let clampOn : Bool := oldint.all (fun v => 0 ≤ v)
  (List.range old.length).map (fun i =>
    let oi := oldint.getD i 0
    let raw := toInt64 (oi + roundHalfEven ((oi : ℚ) * (nmean + nsdev * z (pos + i))))
    (((if clampOn then max raw 0 else raw) : ℤ) : ℚ))

/-!  Basic lemmas about column access and update. -/

theorem setEntry_pos (name : String) (vals : List ℚ) (m : String) (w : List ℚ)
    (h : m = name) : setEntry name vals (m, w) = (name, vals) := by
  unfold setEntry
  exact if_pos h

theorem setEntry_neg (name : String) (vals : List ℚ) (m : String) (w : List ℚ)
    (h : ¬ m = name) : setEntry name vals (m, w) = (m, w) := by
  unfold setEntry
  exact if_neg h

theorem getCol_cons_pos (m : String) (w : List ℚ) (rest : DataFrame)
    (name : String) (h : m = name) : getCol ((m, w) :: rest) name = some w := by
  rw [getCol, if_pos h]

theorem getCol_cons_neg (m : String) (w : List ℚ) (rest : DataFrame)
    (name : String) (h : ¬ m = name) :
    getCol ((m, w) :: rest) name = getCol rest name := by
  rw [getCol, if_neg h]

theorem getCol_map_set (n : String) (v : List ℚ) :
    ∀ df : DataFrame,
      getCol (df.map (setEntry n v)) n =
        if df.any (fun p => p.1 = n) then some v else none
  | [] => rfl
  | (m, w) :: rest => by
      rw [List.map_cons]
      by_cases h : m = n
      · rw [setEntry_pos _ _ _ _ h, getCol_cons_pos _ _ _ _ rfl]
        simp [List.any_cons, h]
      · rw [setEntry_neg _ _ _ _ h, getCol_cons_neg _ _ _ _ h, getCol_map_set n v rest,
          List.any_cons, decide_eq_false h, Bool.false_or]

theorem getCol_map_set_ne (n name : String) (v : List ℚ) (hne : name ≠ n) :
    ∀ df : DataFrame,
      getCol (df.map (setEntry n v)) name = getCol df name
  | [] => rfl
  | (m, w) :: rest => by
      rw [List.map_cons]
      by_cases h : m = n
      · subst h
        rw [setEntry_pos _ _ _ _ rfl, getCol_cons_neg _ _ _ _ (Ne.symm hne),
          getCol_cons_neg _ _ _ _ (fun e => hne e.symm),
          getCol_map_set_ne m name v hne rest]
      · rw [setEntry_neg _ _ _ _ h]
        by_cases he : m = name
        · rw [getCol_cons_pos _ _ _ _ he, getCol_cons_pos _ _ _ _ he]
        · rw [getCol_cons_neg _ _ _ _ he, getCol_cons_neg _ _ _ _ he,
            getCol_map_set_ne n name v hne rest]

theorem getCol_append (name : String) :
    ∀ df1 df2 : DataFrame,
      getCol (df1 ++ df2) name = (getCol df1 name).or (getCol df2 name)
  | [], df2 => rfl
  | (m, w) :: rest, df2 => by
      by_cases h : m = name
      · rw [List.cons_append, getCol_cons_pos _ _ _ _ h, getCol_cons_pos _ _ _ _ h]
        rfl
      · rw [List.cons_append, getCol_cons_neg _ _ _ _ h, getCol_cons_neg _ _ _ _ h,
          getCol_append name rest df2]

theorem getCol_eq_none_of_not_any (name : String) :
    ∀ df : DataFrame, df.any (fun p => p.1 = name) = false → getCol df name = none
  | [], _ => rfl
  | (m, w) :: rest, h => by
      simp only [List.any_cons, Bool.or_eq_false_iff, decide_eq_false_iff_not] at h
      rw [getCol_cons_neg _ _ _ _ h.1, getCol_eq_none_of_not_any name rest h.2]

theorem getCol_setCol_self (df : DataFrame) (n : String) (v : List ℚ) :
    getCol (setCol df n v) n = some v := by
  unfold setCol
  split
  · rename_i h
    rw [getCol_map_set, h]
    rfl
  · rename_i h
    rw [getCol_append, getCol_eq_none_of_not_any n df (Bool.eq_false_iff.mpr h),
      getCol_cons_pos _ _ _ _ rfl]
    rfl

theorem getCol_setCol_ne (df : DataFrame) (n name : String) (v : List ℚ)
    (hne : name ≠ n) : getCol (setCol df n v) name = getCol df name := by
  unfold setCol
  split
  · exact getCol_map_set_ne n name v hne df
  · rw [getCol_append, getCol_cons_neg _ _ _ _ (fun e => hne e.symm)]
    cases hg : getCol df name <;> rfl

/-!  Lemmas about the randomization loop. -/

theorem randomizeCols_cons_skip (nmean nsdev : ℚ) (z : ℕ → ℚ) (num : ℕ)
    (m : String) (w : List ℚ) (rest : DataFrame) (pos : ℕ)
    (h : m ∈ SKIP_VARS) :
    randomizeCols nmean nsdev z num ((m, w) :: rest) pos =
      (m, w) :: randomizeCols nmean nsdev z num rest pos := by
  simp only [randomizeCols]
  rw [if_pos h]

theorem randomizeCols_cons_nonskip (nmean nsdev : ℚ) (z : ℕ → ℚ) (num : ℕ)
    (m : String) (w : List ℚ) (rest : DataFrame) (pos : ℕ)
    (h : m ∉ SKIP_VARS) :
    randomizeCols nmean nsdev z num ((m, w) :: rest) pos =
      (m, randomizeColumn nmean nsdev z pos w) ::
        randomizeCols nmean nsdev z num rest (pos + num) := by
  simp only [randomizeCols]
  rw [if_neg h]

theorem getCol_randomizeCols_skip (nmean nsdev : ℚ) (z : ℕ → ℚ) (num : ℕ)
    (name : String) (hname : name ∈ SKIP_VARS) :
    ∀ (cols : DataFrame) (pos : ℕ),
      getCol (randomizeCols nmean nsdev z num cols pos) name = getCol cols name
  | [], _ => rfl
  | (m, w) :: rest, pos => by
      by_cases hm : m ∈ SKIP_VARS
      · rw [randomizeCols_cons_skip _ _ _ _ _ _ _ _ hm]
        by_cases he : m = name
        · rw [getCol_cons_pos _ _ _ _ he, getCol_cons_pos _ _ _ _ he]
        · rw [getCol_cons_neg _ _ _ _ he, getCol_cons_neg _ _ _ _ he,
            getCol_randomizeCols_skip nmean nsdev z num name hname rest pos]
      · have he : ¬ m = name := fun e => hm (e ▸ hname)
        rw [randomizeCols_cons_nonskip _ _ _ _ _ _ _ _ hm,
          getCol_cons_neg _ _ _ _ he, getCol_cons_neg _ _ _ _ he,
          getCol_randomizeCols_skip nmean nsdev z num name hname rest (pos + num)]

theorem countNonSkipBefore_cons_pos (m : String) (w : List ℚ) (rest : DataFrame)
    (name : String) (h : m = name) :
    countNonSkipBefore ((m, w) :: rest) name = 0 := by
  simp only [countNonSkipBefore]
  rw [if_pos h]

theorem countNonSkipBefore_cons_neg (m : String) (w : List ℚ) (rest : DataFrame)
    (name : String) (h : ¬ m = name) :
    countNonSkipBefore ((m, w) :: rest) name =
      (if m ∈ SKIP_VARS then 0 else 1) + countNonSkipBefore rest name := by
  simp only [countNonSkipBefore]
  rw [if_neg h]

theorem getCol_randomizeCols_eq (nmean nsdev : ℚ) (z : ℕ → ℚ) (num : ℕ)
    (name : String) (hns : name ∉ SKIP_VARS) :
    ∀ (cols : DataFrame) (pos : ℕ) (old : List ℚ), getCol cols name = some old →
      getCol (randomizeCols nmean nsdev z num cols pos) name =
        some (randomizeColumn nmean nsdev z
          (pos + num * countNonSkipBefore cols name) old)
  | [], _, _, h => by cases h
  | (m, w) :: rest, pos, old, h => by
      by_cases he : m = name
      · subst he
        rw [getCol_cons_pos _ _ _ _ rfl] at h
        injection h with h
        subst h
        rw [randomizeCols_cons_nonskip _ _ _ _ _ _ _ _ hns,
          getCol_cons_pos _ _ _ _ rfl, countNonSkipBefore_cons_pos _ _ _ _ rfl,
          Nat.mul_zero, Nat.add_zero]
      · rw [getCol_cons_neg _ _ _ _ he] at h
        rw [countNonSkipBefore_cons_neg _ _ _ _ he]
        by_cases hm : m ∈ SKIP_VARS
        · rw [randomizeCols_cons_skip _ _ _ _ _ _ _ _ hm,
            getCol_cons_neg _ _ _ _ he,
            getCol_randomizeCols_eq nmean nsdev z num name hns rest pos old h,
            if_pos hm]
          ring_nf
        · rw [randomizeCols_cons_nonskip _ _ _ _ _ _ _ _ hm,
            getCol_cons_neg _ _ _ _ he,
            getCol_randomizeCols_eq nmean nsdev z num name hns rest (pos + num) old h,
            if_neg hm]
          have harith : pos + num + num * countNonSkipBefore rest name =
              pos + num * (1 + countNonSkipBefore rest name) := by ring
          rw [harith]

theorem countNonSkipBefore_map_set (n name : String) (v : List ℚ)
    (hne : name ≠ n) :
    ∀ df : DataFrame,
      countNonSkipBefore (df.map (setEntry n v)) name = countNonSkipBefore df name
  | [] => rfl
  | (m, w) :: rest => by
      rw [List.map_cons]
      by_cases h : m = n
      · subst h
        rw [setEntry_pos _ _ _ _ rfl,
          countNonSkipBefore_cons_neg _ _ _ _ (fun e => hne e.symm),
          countNonSkipBefore_cons_neg _ _ _ _ (fun e => hne e.symm),
          countNonSkipBefore_map_set m name v hne rest]
      · rw [setEntry_neg _ _ _ _ h]
        by_cases he : m = name
        · rw [countNonSkipBefore_cons_pos _ _ _ _ he,
            countNonSkipBefore_cons_pos _ _ _ _ he]
        · rw [countNonSkipBefore_cons_neg _ _ _ _ he,
            countNonSkipBefore_cons_neg _ _ _ _ he,
            countNonSkipBefore_map_set n name v hne rest]

theorem countNonSkipBefore_append_found (name : String) (df2 : DataFrame) :
    ∀ df : DataFrame, (getCol df name).isSome →
      countNonSkipBefore (df ++ df2) name = countNonSkipBefore df name
  | [], h => by simp [getCol] at h
  | (m, w) :: rest, h => by
      by_cases he : m = name
      · rw [List.cons_append, countNonSkipBefore_cons_pos _ _ _ _ he,
          countNonSkipBefore_cons_pos _ _ _ _ he]
      · rw [getCol_cons_neg _ _ _ _ he] at h
        rw [List.cons_append, countNonSkipBefore_cons_neg _ _ _ _ he,
          countNonSkipBefore_cons_neg _ _ _ _ he,
          countNonSkipBefore_append_found name df2 rest h]

theorem countNonSkipBefore_setCol (df : DataFrame) (n name : String)
    (v : List ℚ) (hne : name ≠ n) (hmem : (getCol df name).isSome) :
    countNonSkipBefore (setCol df n v) name = countNonSkipBefore df name := by
  unfold setCol
  split
  · exact countNonSkipBefore_map_set n name v hne df
  · exact countNonSkipBefore_append_found name _ df hmem

theorem numRows_flpdyr (df : DataFrame) (c : ℚ) :
    ((getCol (setCol df "FLPDYR" (List.replicate (numRows df) c)) "FLPDYR").getD
      []).length = numRows df := by
  rw [getCol_setCol_self]
  simp

/-- Where a non-skipped column of the input ends up after `randomize_data`:
it is randomized with its rows drawing noise at the stream positions
`num * k`, `num * k + 1`, …, where `num` is the row count and `k` the number
of non-skipped columns before it. -/
theorem getCol_randomize_data (df : DataFrame) (ty : ℤ) (z : ℕ → ℚ)
    (name : String) (hns : name ∉ SKIP_VARS) (old : List ℚ)
    (h : getCol df name = some old) :
    getCol (randomize_data df ty z) name =
      some (randomizeColumn (nmeanFor ty) NORM_STD_DEV z
        (numRows df * countNonSkipBefore df name) old) := by
  have hF : name ≠ "FLPDYR" := by
    rintro rfl
    exact hns (by decide)
  have h1 : getCol (setCol df "FLPDYR"
      (List.replicate (numRows df) ((ty : ℤ) : ℚ))) name = some old := by
    rw [getCol_setCol_ne _ _ _ _ hF]
    exact h
  unfold randomize_data
  rw [getCol_randomizeCols_eq _ _ _ _ _ hns _ _ _ h1, numRows_flpdyr,
    countNonSkipBefore_setCol _ _ _ _ hF (by rw [h]; rfl)]
  rw [Nat.zero_add]

/-!  Value-level lemmas. -/

theorem toInt64_zero : toInt64 0 = 0 := by decide

theorem toInt64_eq_self (n : ℤ) (h1 : -(2 ^ 63) ≤ n) (h2 : n < 2 ^ 63) :
    toInt64 n = n := by
  unfold toInt64
  rw [Int.emod_eq_of_lt (by omega) (by omega)]
  omega

theorem roundHalfEven_zero : roundHalfEven 0 = 0 := by
  simp only [roundHalfEven, Int.floor_zero]
  norm_num

theorem roundHalfEven_nonneg (q : ℚ) (h : 0 ≤ q) : 0 ≤ roundHalfEven q := by
  have hf : (0 : ℤ) ≤ ⌊q⌋ := Int.le_floor.mpr (by exact_mod_cast h)
  simp only [roundHalfEven]
  split_ifs <;> omega

theorem roundHalfEven_intCast (n : ℤ) : roundHalfEven ((n : ℤ) : ℚ) = n := by
  simp only [roundHalfEven, Int.floor_intCast, sub_self]
  norm_num

theorem minIsNeg_eq_false (l : List ℤ) (h : ∀ x ∈ l, 0 ≤ x) :
    minIsNeg l = false := by
  cases l with
  | nil => rfl
  | cons a t =>
      have key : ∀ (t : List ℤ) (acc : ℤ), 0 ≤ acc → (∀ x ∈ t, 0 ≤ x) →
          0 ≤ t.foldl min acc := by
        intro t
        induction t with
        | nil => intro acc hacc _; exact hacc
        | cons b t ih =>
            intro acc hacc hall
            rw [List.foldl_cons]
            exact ih (min acc b) (le_min hacc (hall b (List.mem_cons_self _ _)))
              (fun x hx => hall x (List.mem_cons_of_mem b hx))
      have h0 : 0 ≤ t.foldl min a :=
        key t a (h a (List.mem_cons_self _ _)) (fun x hx => h x (List.mem_cons_of_mem a hx))
      simp only [minIsNeg]
      rw [decide_eq_false (by omega)]

theorem rawVals_getElem (nmean nsdev : ℚ) (z : ℕ → ℚ) :
    ∀ (l : List ℤ) (start i : ℕ) (oi : ℤ), l[i]? = some oi →
      (rawVals nmean nsdev z start l)[i]? =
        some (toInt64 (oi + roundHalfEven ((oi : ℚ) * (nmean + nsdev * z (start + i)))))
  | [], _, i, oi, h => by simp at h
  | a :: rest, start, 0, oi, h => by
      rw [List.getElem?_cons_zero] at h
      injection h with h
      subst h
      simp only [rawVals]
      rw [List.getElem?_cons_zero, Nat.add_zero]
  | a :: rest, start, i + 1, oi, h => by
      rw [List.getElem?_cons_succ] at h
      simp only [rawVals]
      rw [List.getElem?_cons_succ,
        rawVals_getElem nmean nsdev z rest (start + 1) i oi h]
      have harith : start + 1 + i = start + (i + 1) := by omega
      rw [harith]

/-- Row `i` of a randomized column: `oldint` is the rounded, `int64`-truncated
old value, `raw` adds the rounded noise add-on, and the final value is `raw`
clipped at zero unless the column-level `oldint` minimum is negative. -/
theorem randomizeColumn_getElem (nmean nsdev : ℚ) (z : ℕ → ℚ) (pos : ℕ)
    (old : List ℚ) (i : ℕ) (q : ℚ) (h : old[i]? = some q) :
    (randomizeColumn nmean nsdev z pos old)[i]? =
      some (((if minIsNeg (old.map (fun x => toInt64 (roundHalfEven x))) then
          toInt64 (toInt64 (roundHalfEven q) +
            roundHalfEven ((toInt64 (roundHalfEven q) : ℚ) *
              (nmean + nsdev * z (pos + i))))
        else
          max (toInt64 (toInt64 (roundHalfEven q) +
            roundHalfEven ((toInt64 (roundHalfEven q) : ℚ) *
              (nmean + nsdev * z (pos + i))))) 0) : ℤ) : ℚ) := by
  have hoi : (old.map (fun x => toInt64 (roundHalfEven x)))[i]? =
      some (toInt64 (roundHalfEven q)) := by
    rw [List.getElem?_map, h]
    rfl
  have hraw := rawVals_getElem nmean nsdev z _ pos i _ hoi
  simp only [randomizeColumn]
  by_cases hmin : minIsNeg (old.map (fun x => toInt64 (roundHalfEven x))) = true
  · simp only [hmin, eq_self_iff_true, if_true, List.getElem?_map, hraw]
    rfl
  · have hmin' : minIsNeg (old.map (fun x => toInt64 (roundHalfEven x))) = false :=
      Bool.eq_false_iff.mpr hmin
    simp only [hmin', Bool.false_eq_true, if_false, List.getElem?_map, hraw]
    rfl

/-! ## Claim C4 (zero preservation) -/

/-- Claim C4: for every randomized (non-skipped) column and every row whose
pre-randomization value is zero, the post-randomization value is exactly zero:
`oldint = 0`, so the add-on `round(oldint * rfactor) = 0`, so `raw = 0`, and
clipping (if applied) keeps `0`. -/
theorem c4_theorem (df : DataFrame) (ty : ℤ) (z : ℕ → ℚ) (name : String)
    (hns : name ∉ SKIP_VARS) (old : List ℚ) (h : getCol df name = some old)
    (i : ℕ) (hzero : old[i]? = some 0) :
    ∃ post, getCol (randomize_data df ty z) name = some post ∧
      post[i]? = some 0 := by
  refine ⟨_, getCol_randomize_data df ty z name hns old h, ?_⟩
  rw [randomizeColumn_getElem _ _ _ _ _ _ _ hzero]
  have h0 : toInt64 (roundHalfEven (0 : ℚ)) = 0 := by
    rw [roundHalfEven_zero, toInt64_zero]
  rw [h0]
  norm_num [roundHalfEven_zero, toInt64_zero]

/-- Witness for C4: a concrete zero-valued row stays exactly zero. -/
theorem c4_witness :
    ∃ post,
      getCol (randomize_data [("e00200", [(0 : ℚ), 5])] 2013 (fun _ => 1))
        "e00200" = some post ∧ post[0]? = some 0 := by
  exact c4_theorem [("e00200", [(0 : ℚ), 5])] 2013 (fun _ => 1) "e00200"
    (by decide) [(0 : ℚ), 5] rfl 0 rfl

theorem rawVals_length (nmean nsdev : ℚ) (z : ℕ → ℚ) :
    ∀ (start : ℕ) (l : List ℤ), (rawVals nmean nsdev z start l).length = l.length
  | _, [] => rfl
  | start, a :: rest => by
      simp only [rawVals, List.length_cons,
        rawVals_length nmean nsdev z (start + 1) rest]

theorem randomizeColumn_length (nmean nsdev : ℚ) (z : ℕ → ℚ) (pos : ℕ)
    (old : List ℚ) :
    (randomizeColumn nmean nsdev z pos old).length = old.length := by
  simp only [randomizeColumn]
  split
  · rw [List.length_map, rawVals_length, List.length_map]
  · rw [List.length_map, List.length_map, rawVals_length, List.length_map]

theorem foldl_min_neg_iff :
    ∀ (t : List ℤ) (a : ℤ), t.foldl min a < 0 ↔ (a < 0 ∨ ∃ x ∈ t, x < 0)
  | [], a => by simp
  | b :: t, a => by
      rw [List.foldl_cons, foldl_min_neg_iff t (min a b)]
      simp only [min_lt_iff, List.mem_cons, or_assoc]
      constructor
      · rintro (h | h | ⟨x, hx, hxlt⟩)
        · exact Or.inl h
        · exact Or.inr ⟨b, Or.inl rfl, h⟩
        · exact Or.inr ⟨x, Or.inr hx, hxlt⟩
      · rintro (h | ⟨x, hx | hx, hxlt⟩)
        · exact Or.inl h
        · exact Or.inr (Or.inl (hx ▸ hxlt))
        · exact Or.inr (Or.inr ⟨x, hx, hxlt⟩)

theorem minIsNeg_eq_not_all (l : List ℤ) :
    minIsNeg l = !(l.all (fun v => 0 ≤ v)) := by
  cases l with
  | nil => rfl
  | cons a t =>
      cases hall : (a :: t).all (fun v => 0 ≤ v) with
      | true =>
          have h := List.all_eq_true.mp hall
          rw [minIsNeg_eq_false _ (fun x hx => of_decide_eq_true (h x hx))]
          rfl
      | false =>
          obtain ⟨x, hx, hpx⟩ := List.all_eq_false.mp hall
          have hxneg : x < 0 := by
            by_contra hge
            push_neg at hge
            exact hpx (decide_eq_true hge)
          have hmlt : t.foldl min a < 0 := by
            rw [foldl_min_neg_iff]
            rcases List.mem_cons.mp hx with rfl | hxm
            · exact Or.inl hxneg
            · exact Or.inr ⟨x, hxm, hxneg⟩
          simp only [minIsNeg]
          rw [decide_eq_true hmlt]
          rfl

theorem specColumnOldintMin_length (nmean nsdev : ℚ) (z : ℕ → ℚ) (pos : ℕ)
    (old : List ℚ) :
    (specColumnOldintMin nmean nsdev z pos old).length = old.length := by
  simp [specColumnOldintMin]

/-- The per-column loop body applies exactly the clamp rule of the amended
claim C3: clipping happens iff the `oldint` minimum is nonnegative. -/
theorem randomizeColumn_eq_spec (nmean nsdev : ℚ) (z : ℕ → ℚ) (pos : ℕ)
    (old : List ℚ) :
    randomizeColumn nmean nsdev z pos old =
      specColumnOldintMin nmean nsdev z pos old := by
  apply List.ext_getElem?
  intro i
  by_cases hi : i < old.length
  · have hq : old[i]? = some old[i] := List.getElem?_eq_getElem hi
    rw [randomizeColumn_getElem nmean nsdev z pos old i old[i] hq]
    simp only [specColumnOldintMin]
    rw [List.getElem?_map, List.getElem?_range hi]
    simp only [Option.map_some']
    have hgd : (old.map (fun q => toInt64 (roundHalfEven q))).getD i 0 =
        toInt64 (roundHalfEven old[i]) := by
      rw [List.getD_eq_getElem?_getD, List.getElem?_map, hq]
      rfl
    rw [hgd, minIsNeg_eq_not_all]
    cases hall : (old.map (fun x => toInt64 (roundHalfEven x))).all
        (fun v => 0 ≤ v) with
    | false => rfl
    | true => rfl
  · have h1 : (randomizeColumn nmean nsdev z pos old).length ≤ i := by
      rw [randomizeColumn_length]
      omega
    have h2 : (specColumnOldintMin nmean nsdev z pos old).length ≤ i := by
      rw [specColumnOldintMin_length]
      omega
    rw [List.getElem?_eq_none h1, List.getElem?_eq_none h2]

/-! ## Claim C2 (randomization formula) -/

/-- Claim C2 counterexample: the claimed formula
`new = oldint + round(oldint * rfactor)` (truncated to int64) describes the
value BEFORE the column-level clip of csv_in.py lines 89-92.  For the
one-element column `[5]` (minimum ≥ 0, so the clip applies) and a draw giving
`rfactor = -2`, the formula yields `-5` but the stored value is `0`. -/
theorem c2_counterexample :
    getCol (randomize_data [("e00600", [(5 : ℚ)])] 2013
      (fun _ => -(312) / 25)) "e00600" = some [(0 : ℚ)] ∧
    nmeanFor 2013 + NORM_STD_DEV * (-(312) / 25) = -2 ∧
    toInt64 (toInt64 (roundHalfEven 5) + roundHalfEven
      ((toInt64 (roundHalfEven 5) : ℚ) *
        (nmeanFor 2013 + NORM_STD_DEV * (-(312) / 25)))) = -5 ∧
    ((0 : ℚ) ≠ ((-5 : ℤ) : ℚ)) := by
  refine ⟨?_, by with_unfolding_all decide, by with_unfolding_all decide,
    by with_unfolding_all decide⟩
  with_unfolding_all decide

/-- Claim C2 (amended): for a non-skipped column at non-skip index `k` and row
`i`, `randomize_data` computes the pre-clip value
`oldint + round(oldint * rfactor)` truncated to int64, where
`oldint = round(old)` truncated to int64 and
`rfactor = nmean + NORM_STD_DEV * z (num * k + i)` is the row's own draw from
`np.random.normal(nmean, NORM_STD_DEV, num)` with
`nmean = 1 + ANNUAL_DRIFT * (taxyear - 2009)`; the stored value additionally
has the column-level clip applied when the `oldint` minimum is nonnegative. -/
theorem c2_theorem (df : DataFrame) (ty : ℤ) (z : ℕ → ℚ) (name : String)
    (hns : name ∉ SKIP_VARS) (old : List ℚ) (h : getCol df name = some old)
    (i : ℕ) (q : ℚ) (hq : old[i]? = some q) :
    ∃ post, getCol (randomize_data df ty z) name = some post ∧
      post[i]? =
        some (((if minIsNeg (old.map (fun x => toInt64 (roundHalfEven x))) then
            toInt64 (toInt64 (roundHalfEven q) +
              roundHalfEven ((toInt64 (roundHalfEven q) : ℚ) *
                (nmeanFor ty + NORM_STD_DEV *
                  z (numRows df * countNonSkipBefore df name + i))))
          else
            max (toInt64 (toInt64 (roundHalfEven q) +
              roundHalfEven ((toInt64 (roundHalfEven q) : ℚ) *
                (nmeanFor ty + NORM_STD_DEV *
                  z (numRows df * countNonSkipBefore df name + i))))) 0) : ℤ) : ℚ) :=
  ⟨_, getCol_randomize_data df ty z name hns old h,
    randomizeColumn_getElem (nmeanFor ty) NORM_STD_DEV z
      (numRows df * countNonSkipBefore df name) old i q hq⟩

/-- Witness for C2: the column `[5]` with the constant draw `z = 0`
(`rfactor = 1.12`) becomes `[11]`: `5 + round(5 * 1.12) = 5 + 6 = 11`. -/
theorem c2_witness :
    getCol (randomize_data [("e00600", [(5 : ℚ)])] 2013 (fun _ => 0))
      "e00600" = some [(11 : ℚ)] := by
  obtain ⟨post, h1, h2⟩ := c2_theorem [("e00600", [(5 : ℚ)])] 2013 (fun _ => 0)
    "e00600" (by decide) [(5 : ℚ)] rfl 0 5 rfl
  have h3 := (h1.symm.trans (getCol_randomize_data [("e00600", [(5 : ℚ)])] 2013
    (fun _ => 0) "e00600" (by decide) [(5 : ℚ)] rfl))
  injection h3 with h3
  rw [h1, h3]
  with_unfolding_all decide

/-! ## Claim C3 (clamp decision) -/

/-- Claim C3 counterexample: the clamp decision does NOT use the original
column minimum; it uses the minimum of the rounded, int64-truncated `oldint`
values (csv_in.py line 89, `oldint.min() < 0`).  The column `[-2/5, 10]` has
original minimum `-2/5 < 0`, so by the claim the clamp should not be applied
and row 1 should keep its raw value `-10`; but `-2/5` rounds to `0`, the
`oldint` minimum is `0 ≥ 0`, the clamp IS applied, and the stored value is
`0`. -/
theorem c3_counterexample :
    (-(2 / 5 : ℚ)) < 0 ∧
    getCol [("e00600", [-(2 / 5 : ℚ), 10])] "e00600" =
      some [-(2 / 5 : ℚ), 10] ∧
    rawVals (nmeanFor 2013) NORM_STD_DEV
      (fun n => if n = 1 then -(312) / 25 else 0) 0
      ([-(2 / 5 : ℚ), 10].map (fun x => toInt64 (roundHalfEven x))) =
        [0, -10] ∧
    getCol (randomize_data [("e00600", [-(2 / 5 : ℚ), 10])] 2013
      (fun n => if n = 1 then -(312) / 25 else 0)) "e00600" =
        some [(0 : ℚ), 0] ∧
    ((0 : ℚ) ≠ ((-10 : ℤ) : ℚ)) := by
  refine ⟨by with_unfolding_all decide, rfl, by with_unfolding_all decide, ?_,
    by with_unfolding_all decide⟩
  with_unfolding_all decide

/-- Claim C3 (amended): the non-negativity clamp is applied iff the minimum of
the ROUNDED, int64-truncated (`oldint`) values of the column is ≥ 0; the
decision is made once per column, not per row.  Stated as: every randomized
column of `randomize_data` equals `specColumnOldintMin`, the per-row formula
clamped under exactly that column-level rule. -/
theorem c3_theorem (df : DataFrame) (ty : ℤ) (z : ℕ → ℚ) (name : String)
    (hns : name ∉ SKIP_VARS) (old : List ℚ)
    (h : getCol df name = some old) :
    getCol (randomize_data df ty z) name =
      some (specColumnOldintMin (nmeanFor ty) NORM_STD_DEV z
        (numRows df * countNonSkipBefore df name) old) := by
  rw [getCol_randomize_data df ty z name hns old h, randomizeColumn_eq_spec]

/-- Witness for C3: concrete evaluation of the amended description on the
column `[-2/5, 10]` (clamped, because the rounded minimum is `0 ≥ 0`). -/
theorem c3_witness :
    getCol (randomize_data [("e00600", [-(2 / 5 : ℚ), 10])] 2013
      (fun n => if n = 1 then -(312) / 25 else 0)) "e00600" =
        some (specColumnOldintMin (nmeanFor 2013) NORM_STD_DEV
          (fun n => if n = 1 then -(312) / 25 else 0) 0
          [-(2 / 5 : ℚ), 10]) := by
  have h := c3_theorem [("e00600", [-(2 / 5 : ℚ), 10])] 2013
    (fun n => if n = 1 then -(312) / 25 else 0) "e00600" (by decide)
    [-(2 / 5 : ℚ), 10] rfl
  exact h.trans (by with_unfolding_all decide)

/-! ## Claim C5 (non-negativity) -/

/-- Claim C5 counterexample: int64 overflow breaks non-negativity.  The value
`2^63` is nonnegative, but `astype(np.int64)` maps it to `-2^63`; the column
minimum test then sees a negative `oldint`, the clamp is NOT applied, and with
a draw making `rfactor = 0` the stored value is `-2^63 < 0`. -/
theorem c5_counterexample :
    (∀ x ∈ [(((2 : ℤ) ^ 63 : ℤ) : ℚ)], 0 ≤ x) ∧
    getCol (randomize_data [("e00600", [(((2 : ℤ) ^ 63 : ℤ) : ℚ)])] 2013
      (fun _ => -(112) / 25)) "e00600" =
        some [((-((2 : ℤ) ^ 63) : ℤ) : ℚ)] ∧
    (((-((2 : ℤ) ^ 63) : ℤ) : ℚ) < 0) := by
  refine ⟨?_, ?_, by norm_num⟩
  · intro x hx
    simp only [List.mem_singleton] at hx
    subst hx
    positivity
  · rw [getCol_randomize_data [("e00600", [(((2 : ℤ) ^ 63 : ℤ) : ℚ)])] 2013
      (fun _ => -(112) / 25) "e00600" (by decide)
      [(((2 : ℤ) ^ 63 : ℤ) : ℚ)] rfl]
    have hpos0 : numRows [("e00600", [(((2 : ℤ) ^ 63 : ℤ) : ℚ)])] *
        countNonSkipBefore [("e00600", [(((2 : ℤ) ^ 63 : ℤ) : ℚ)])] "e00600" = 0 := by
      rw [countNonSkipBefore_cons_pos _ _ _ _ rfl, Nat.mul_zero]
    rw [hpos0]
    have hti : toInt64 (2 ^ 63) = -(2 ^ 63) := by decide
    have hti2 : toInt64 (-(2 ^ 63)) = -(2 ^ 63) := by decide
    have hrf : nmeanFor 2013 + NORM_STD_DEV * (-(112) / 25) = 0 := by
      rw [nmeanFor, ANNUAL_DRIFT, NORM_STD_DEV]
      norm_num
    have hmin : minIsNeg [-((2 : ℤ) ^ 63)] = true := by decide
    simp only [randomizeColumn, List.map_cons, List.map_nil, rawVals,
      roundHalfEven_intCast, hti, hrf, mul_zero, roundHalfEven_zero, add_zero,
      hti2, hmin, if_true, eq_self_iff_true]
/-- Claim C5 (amended): for every randomized column whose values are all ≥ 0
and all round to integers below `2^63` (no int64 overflow in the `oldint`
step), every post-randomization value is ≥ 0: the rounded minimum is then
nonnegative, so the column is clipped at zero. -/
theorem c5_theorem (df : DataFrame) (ty : ℤ) (z : ℕ → ℚ) (name : String)
    (hns : name ∉ SKIP_VARS) (old : List ℚ) (h : getCol df name = some old)
    (hpos : ∀ x ∈ old, 0 ≤ x)
    (hrange : ∀ x ∈ old, roundHalfEven x < 2 ^ 63) :
    ∀ post, getCol (randomize_data df ty z) name = some post →
      ∀ v ∈ post, 0 ≤ v := by
  intro post hpost v hv
  have hmaster := getCol_randomize_data df ty z name hns old h
  rw [hpost] at hmaster
  injection hmaster with hmaster
  subst hmaster
  have holdint : ∀ y ∈ old.map (fun q => toInt64 (roundHalfEven q)), 0 ≤ y := by
    intro y hy
    rw [List.mem_map] at hy
    obtain ⟨x, hx, rfl⟩ := hy
    rw [toInt64_eq_self _ (by have := roundHalfEven_nonneg x (hpos x hx); omega)
      (hrange x hx)]
    exact roundHalfEven_nonneg x (hpos x hx)
  rw [randomizeColumn, minIsNeg_eq_false _ holdint] at hv
  simp only [Bool.false_eq_true, if_false, List.map_map, List.mem_map] at hv
  obtain ⟨r, _, rfl⟩ := hv
  simp only [Function.comp_apply]
  exact_mod_cast le_max_right r 0

/-- Witness for C5: the all-positive column `[1, 2]` (draws `z = 0`) yields
`[2, 4]`, and every value is nonnegative. -/
theorem c5_witness : (0 : ℚ) ≤ 2 ∧ (0 : ℚ) ≤ 4 := by
  have h := c5_theorem [("e00600", [(1 : ℚ), 2])] 2013 (fun _ => 0) "e00600"
    (by decide) [(1 : ℚ), 2] rfl (by with_unfolding_all decide)
    (by with_unfolding_all decide)
  have hpost : getCol (randomize_data [("e00600", [(1 : ℚ), 2])] 2013
      (fun _ => 0)) "e00600" = some [(2 : ℚ), 4] := by
    with_unfolding_all decide
  exact ⟨h _ hpost 2 (by with_unfolding_all decide),
    h _ hpost 4 (by with_unfolding_all decide)⟩

/-! ## Claim C1 (skip-list invariance) -/

/-- Claim C1 counterexample: `FLPDYR` is in `SkipColumns`, yet `randomize_data`
overwrites it with the target tax year (csv_in.py line 71).  With a
pre-randomization value 2013 and target year 2020 the post-randomization value
is 2020, not 2013, so skip-list columns are not always left unaltered. -/
theorem c1_counterexample :
    "FLPDYR" ∈ SKIP_VARS ∧
    getCol [("FLPDYR", [(2013 : ℚ)])] "FLPDYR" = some [(2013 : ℚ)] ∧
    getCol (randomize_data [("FLPDYR", [(2013 : ℚ)])] 2020 (fun _ => 0))
      "FLPDYR" = some [(2020 : ℚ)] ∧
    some [(2020 : ℚ)] ≠ some [(2013 : ℚ)] := by
  refine ⟨by decide, rfl, ?_, by with_unfolding_all decide⟩
  with_unfolding_all decide

/-- Claim C1 (amended): for every column in `SkipColumns` other than `FLPDYR`,
post-randomization values equal pre-randomization values exactly; `FLPDYR`
itself is set to the target tax year in every row. -/
theorem c1_theorem (df : DataFrame) (ty : ℤ) (z : ℕ → ℚ) (name : String)
    (hmem : name ∈ SKIP_VARS) (hne : name ≠ "FLPDYR") :
    getCol (randomize_data df ty z) name = getCol df name ∧
    getCol (randomize_data df ty z) "FLPDYR" =
      some (List.replicate (numRows df) ((ty : ℤ) : ℚ)) := by
  constructor
  · unfold randomize_data
    rw [getCol_randomizeCols_skip _ _ _ _ _ hmem, getCol_setCol_ne _ _ _ _ hne]
  · unfold randomize_data
    rw [getCol_randomizeCols_skip _ _ _ _ _ (by decide), getCol_setCol_self]

/-- Witness for C1: a concrete skip column (`RECID`) passes through
`randomize_data` unchanged. -/
theorem c1_witness :
    getCol (randomize_data [("RECID", [(7 : ℚ)]), ("FLPDYR", [(2013 : ℚ)])]
      2020 (fun _ => 0)) "RECID" = some [(7 : ℚ)] := by
  have h := c1_theorem [("RECID", [(7 : ℚ)]), ("FLPDYR", [(2013 : ℚ)])]
    2020 (fun _ => 0) "RECID" (by decide) (by decide)
  exact h.1.trans rfl

/-!  Lemmas for the constraint repairer and the sampler. -/

theorem zipWith_max_le :
    ∀ (a b : List ℚ) (i : ℕ) (x y : ℚ),
      (List.zipWith max a b)[i]? = some x → b[i]? = some y → y ≤ x
  | [], _, i, x, y, hx, _ => by simp at hx
  | _ :: _, [], i, x, y, _, hy => by simp at hy
  | a :: as, b :: bs, 0, x, y, hx, hy => by
      rw [List.zipWith_cons_cons, List.getElem?_cons_zero] at hx
      rw [List.getElem?_cons_zero] at hy
      injection hx with hx
      injection hy with hy
      subst hx
      subst hy
      exact le_max_right a b
  | a :: as, b :: bs, i + 1, x, y, hx, hy => by
      rw [List.zipWith_cons_cons, List.getElem?_cons_succ] at hx
      rw [List.getElem?_cons_succ] at hy
      exact zipWith_max_le as bs i x y hx hy

theorem mem_setCol (df : DataFrame) (name : String) (v : List ℚ)
    (c : String × List ℚ) (hc : c ∈ setCol df name v) :
    c = (name, v) ∨ c ∈ df := by
  unfold setCol at hc
  split at hc
  · rw [List.mem_map] at hc
    obtain ⟨p, hp, rfl⟩ := hc
    unfold setEntry
    split
    · exact Or.inl rfl
    · exact Or.inr hp
  · rcases List.mem_append.mp hc with h | h
    · exact Or.inr h
    · rw [List.mem_singleton] at h
      exact Or.inl h

theorem setCol_ne_nil (df : DataFrame) (name : String) (v : List ℚ) :
    setCol df name v ≠ [] := by
  unfold setCol
  split
  · rename_i h
    cases df with
    | nil => simp at h
    | cons c rest => simp
  · simp

theorem numRows_of_mem (out : DataFrame) (n : ℕ) (hne : out ≠ [])
    (h : ∀ c ∈ out, c.2.length = n) : numRows out = n := by
  cases out with
  | nil => exact absurd rfl hne
  | cons c rest =>
      obtain ⟨nm, v⟩ := c
      exact h (nm, v) (List.mem_cons_self _ _)

theorem getCol_map_vals (g : List ℚ → List ℚ) (name : String) :
    ∀ df : DataFrame,
      getCol (df.map (fun c => (c.1, g c.2))) name = (getCol df name).map g
  | [] => rfl
  | (m, w) :: rest => by
      simp only [List.map_cons]
      by_cases h : m = name
      · rw [getCol_cons_pos _ _ _ _ h, getCol_cons_pos _ _ _ _ h]
        rfl
      · rw [getCol_cons_neg _ _ _ _ h, getCol_cons_neg _ _ _ _ h,
          getCol_map_vals g name rest]

/-!  Lemmas about `wrapInt64`. -/

theorem wrapInt64_intCast (n : ℤ) :
    wrapInt64 ((n : ℤ) : ℚ) = ((toInt64 n : ℤ) : ℚ) := by
  unfold wrapInt64
  rw [if_pos (Rat.den_intCast n), Rat.intCast_num]

theorem wrapInt64_exact (a b : ℚ) (ha : a.den = 1) (hb : b.den = 1)
    (h1 : -(2 ^ 63) ≤ a.num + b.num) (h2 : a.num + b.num < 2 ^ 63) :
    wrapInt64 (a + b) = a + b := by
  have hab : a + b = (((a.num + b.num : ℤ)) : ℚ) := by
    conv_lhs => rw [← Rat.coe_int_num_of_den_eq_one ha,
      ← Rat.coe_int_num_of_den_eq_one hb]
    rw [Int.cast_add]
  rw [hab, wrapInt64_intCast, toInt64_eq_self _ h1 h2]

theorem zipWith_wrap_getElem :
    ∀ (a b : List ℚ) (i : ℕ) (x y : ℚ), a[i]? = some x → b[i]? = some y →
      (List.zipWith (fun u v => wrapInt64 (u + v)) a b)[i]? =
        some (wrapInt64 (x + y))
  | [], _, i, x, y, hx, _ => by simp at hx
  | _ :: _, [], i, x, y, _, hy => by simp at hy
  | a :: as, b :: bs, 0, x, y, hx, hy => by
      rw [List.getElem?_cons_zero] at hx
      rw [List.getElem?_cons_zero] at hy
      injection hx with hx
      injection hy with hy
      subst hx
      subst hy
      rw [List.zipWith_cons_cons, List.getElem?_cons_zero]
  | a :: as, b :: bs, i + 1, x, y, hx, hy => by
      rw [List.getElem?_cons_succ] at hx
      rw [List.getElem?_cons_succ] at hy
      rw [List.zipWith_cons_cons, List.getElem?_cons_succ]
      exact zipWith_wrap_getElem as bs i x y hx hy

/-- Evaluation of `constrain_data` outside debug mode on a frame containing
all ten operand columns. -/
theorem constrain_data_run (df : DataFrame)
    (p200 s200 p900 s900 p210 s210 d600 d650 d150 d170 : List ℚ)
    (h1 : getCol df "e00200p" = some p200)
    (h2 : getCol df "e00200s" = some s200)
    (h3 : getCol df "e00900p" = some p900)
    (h4 : getCol df "e00900s" = some s900)
    (h5 : getCol df "e02100p" = some p210)
    (h6 : getCol df "e02100s" = some s210)
    (h7 : getCol df "e00600" = some d600)
    (h8 : getCol df "e00650" = some d650)
    (h9 : getCol df "e01500" = some d150)
    (h10 : getCol df "e01700" = some d170) :
    constrain_data false df = some (setCol (setCol (setCol (setCol (setCol
      df "e00200" (List.zipWith (fun a b => wrapInt64 (a + b)) p200 s200))
      "e00900" (List.zipWith (fun a b => wrapInt64 (a + b)) p900 s900))
      "e02100" (List.zipWith (fun a b => wrapInt64 (a + b)) p210 s210))
      "e00600" (List.zipWith max d600 d650)) "e01500"
      (List.zipWith max d150 d170)) := by
  have g3 : getCol (setCol df "e00200"
      (List.zipWith (fun a b => wrapInt64 (a + b)) p200 s200)) "e00900p" =
      some p900 := by
    rw [getCol_setCol_ne _ _ _ _ (by decide)]
    exact h3
  have g4 : getCol (setCol df "e00200"
      (List.zipWith (fun a b => wrapInt64 (a + b)) p200 s200)) "e00900s" =
      some s900 := by
    rw [getCol_setCol_ne _ _ _ _ (by decide)]
    exact h4
  have g5 : getCol (setCol (setCol df "e00200"
      (List.zipWith (fun a b => wrapInt64 (a + b)) p200 s200)) "e00900"
      (List.zipWith (fun a b => wrapInt64 (a + b)) p900 s900)) "e02100p" =
      some p210 := by
    rw [getCol_setCol_ne _ _ _ _ (by decide),
      getCol_setCol_ne _ _ _ _ (by decide)]
    exact h5
  have g6 : getCol (setCol (setCol df "e00200"
      (List.zipWith (fun a b => wrapInt64 (a + b)) p200 s200)) "e00900"
      (List.zipWith (fun a b => wrapInt64 (a + b)) p900 s900)) "e02100s" =
      some s210 := by
    rw [getCol_setCol_ne _ _ _ _ (by decide),
      getCol_setCol_ne _ _ _ _ (by decide)]
    exact h6
  have g7 : getCol (setCol (setCol (setCol df "e00200"
      (List.zipWith (fun a b => wrapInt64 (a + b)) p200 s200)) "e00900"
      (List.zipWith (fun a b => wrapInt64 (a + b)) p900 s900)) "e02100"
      (List.zipWith (fun a b => wrapInt64 (a + b)) p210 s210)) "e00600" =
      some d600 := by
    rw [getCol_setCol_ne _ _ _ _ (by decide),
      getCol_setCol_ne _ _ _ _ (by decide),
      getCol_setCol_ne _ _ _ _ (by decide)]
    exact h7
  have g8 : getCol (setCol (setCol (setCol df "e00200"
      (List.zipWith (fun a b => wrapInt64 (a + b)) p200 s200)) "e00900"
      (List.zipWith (fun a b => wrapInt64 (a + b)) p900 s900)) "e02100"
      (List.zipWith (fun a b => wrapInt64 (a + b)) p210 s210)) "e00650" =
      some d650 := by
    rw [getCol_setCol_ne _ _ _ _ (by decide),
      getCol_setCol_ne _ _ _ _ (by decide),
      getCol_setCol_ne _ _ _ _ (by decide)]
    exact h8
  have g9 : getCol (setCol (setCol (setCol (setCol df "e00200"
      (List.zipWith (fun a b => wrapInt64 (a + b)) p200 s200)) "e00900"
      (List.zipWith (fun a b => wrapInt64 (a + b)) p900 s900)) "e02100"
      (List.zipWith (fun a b => wrapInt64 (a + b)) p210 s210)) "e00600"
      (List.zipWith max d600 d650)) "e01500" = some d150 := by
    rw [getCol_setCol_ne _ _ _ _ (by decide),
      getCol_setCol_ne _ _ _ _ (by decide),
      getCol_setCol_ne _ _ _ _ (by decide),
      getCol_setCol_ne _ _ _ _ (by decide)]
    exact h9
  have g10 : getCol (setCol (setCol (setCol (setCol df "e00200"
      (List.zipWith (fun a b => wrapInt64 (a + b)) p200 s200)) "e00900"
      (List.zipWith (fun a b => wrapInt64 (a + b)) p900 s900)) "e02100"
      (List.zipWith (fun a b => wrapInt64 (a + b)) p210 s210)) "e00600"
      (List.zipWith max d600 d650)) "e01700" = some d170 := by
    rw [getCol_setCol_ne _ _ _ _ (by decide),
      getCol_setCol_ne _ _ _ _ (by decide),
      getCol_setCol_ne _ _ _ _ (by decide),
      getCol_setCol_ne _ _ _ _ (by decide)]
    exact h10
  simp only [constrain_data, Bool.false_eq_true, if_false,
    Option.bind_eq_bind, h1, h2, g3, g4, g5, g6, g7, g8, g9, g10,
    Option.some_bind]

/-! ## Claim C6 (identity restoration) -/

/-- Claim C6 counterexample: the split-aggregate identity does not hold
EXACTLY when the int64 sum overflows.  With parts `e00200p = e00200s = 2^62`,
the exact sum is `2^63`, but pandas int64 addition wraps and the stored
`e00200` value is `-2^63`. -/
theorem c6_counterexample :
    ((((2 : ℤ) ^ 62 : ℤ) : ℚ) + (((2 : ℤ) ^ 62 : ℤ) : ℚ) =
      (((2 : ℤ) ^ 63 : ℤ) : ℚ)) ∧
    constrain_data false overflowFrame = some overflowFrameOut ∧
    getCol overflowFrameOut "e00200" = some [((-((2 : ℤ) ^ 63) : ℤ) : ℚ)] ∧
    ((-((2 : ℤ) ^ 63) : ℤ) : ℚ) ≠ (((2 : ℤ) ^ 63 : ℤ) : ℚ) := by
  have hsum : (((2 : ℤ) ^ 62 : ℤ) : ℚ) + (((2 : ℤ) ^ 62 : ℤ) : ℚ) =
      (((2 : ℤ) ^ 63 : ℤ) : ℚ) := by
    push_cast
    ring
  refine ⟨hsum, ?_, rfl, by push_cast; norm_num⟩
  have hrun := constrain_data_run overflowFrame
    [(((2 : ℤ) ^ 62 : ℤ) : ℚ)] [(((2 : ℤ) ^ 62 : ℤ) : ℚ)]
    [0] [0] [0] [0] [0] [0] [0] [0]
    rfl rfl rfl rfl rfl rfl rfl rfl rfl rfl
  have hv1 : List.zipWith (fun a b => wrapInt64 (a + b))
      [(((2 : ℤ) ^ 62 : ℤ) : ℚ)] [(((2 : ℤ) ^ 62 : ℤ) : ℚ)] =
      [((-((2 : ℤ) ^ 63) : ℤ) : ℚ)] := by
    rw [List.zipWith_cons_cons]
    rw [hsum, wrapInt64_intCast]
    have ht : toInt64 ((2 : ℤ) ^ 63) = -((2 : ℤ) ^ 63) := by decide
    rw [ht]
    rfl
  have hv0 : List.zipWith (fun a b => wrapInt64 (a + b)) [(0 : ℚ)] [(0 : ℚ)] =
      [(0 : ℚ)] := by
    rw [List.zipWith_cons_cons]
    have h0 : wrapInt64 ((0 : ℚ) + 0) = 0 := by with_unfolding_all decide
    rw [h0]
    rfl
  have hvm : List.zipWith max [(0 : ℚ)] [(0 : ℚ)] = [(0 : ℚ)] := by
    rw [List.zipWith_cons_cons]
    have hm : max (0 : ℚ) 0 = 0 := by with_unfolding_all decide
    rw [hm]
    rfl
  rw [hv1, hv0, hvm] at hrun
  exact hrun.trans (by rfl)

/-- Claim C6 (amended): outside debug mode, `constrain_data` stores each
split-aggregate total as the pandas int64 sum of its parts — the exact sum
wrapped into the int64 range, which equals the exact sum whenever that sum is
within `[-2^63, 2^63)` — and raises `e00600` and `e01500` to the element-wise
maxima with `e00650` and `e01700` (exact: `np.maximum` does not overflow), so
both dominance inequalities hold row-by-row; the related columns keep their
values, and the repair is a pure function of the already-randomized input
(its type takes no noise stream), hence deterministic. -/
theorem c6_theorem (df : DataFrame)
    (p200 s200 p900 s900 p210 s210 d600 d650 d150 d170 : List ℚ)
    (h1 : getCol df "e00200p" = some p200)
    (h2 : getCol df "e00200s" = some s200)
    (h3 : getCol df "e00900p" = some p900)
    (h4 : getCol df "e00900s" = some s900)
    (h5 : getCol df "e02100p" = some p210)
    (h6 : getCol df "e02100s" = some s210)
    (h7 : getCol df "e00600" = some d600)
    (h8 : getCol df "e00650" = some d650)
    (h9 : getCol df "e01500" = some d150)
    (h10 : getCol df "e01700" = some d170) :
    ∃ out, constrain_data false df = some out ∧
      getCol out "e00200" =
        some (List.zipWith (fun a b => wrapInt64 (a + b)) p200 s200) ∧
      getCol out "e00900" =
        some (List.zipWith (fun a b => wrapInt64 (a + b)) p900 s900) ∧
      getCol out "e02100" =
        some (List.zipWith (fun a b => wrapInt64 (a + b)) p210 s210) ∧
      getCol out "e00600" = some (List.zipWith max d600 d650) ∧
      getCol out "e01500" = some (List.zipWith max d150 d170) ∧
      getCol out "e00650" = some d650 ∧
      getCol out "e01700" = some d170 ∧
      (∀ (i : ℕ) (a b : ℚ), p200[i]? = some a → s200[i]? = some b →
        a.den = 1 → b.den = 1 → -(2 ^ 63) ≤ a.num + b.num →
        a.num + b.num < 2 ^ 63 →
        (List.zipWith (fun u v => wrapInt64 (u + v)) p200 s200)[i]? =
          some (a + b)) ∧
      (∀ (i : ℕ) (x y : ℚ), (List.zipWith max d600 d650)[i]? = some x →
        d650[i]? = some y → y ≤ x) ∧
      (∀ (i : ℕ) (x y : ℚ), (List.zipWith max d150 d170)[i]? = some x →
        d170[i]? = some y → y ≤ x) := by
  refine ⟨setCol (setCol (setCol (setCol (setCol
      df "e00200" (List.zipWith (fun a b => wrapInt64 (a + b)) p200 s200))
      "e00900" (List.zipWith (fun a b => wrapInt64 (a + b)) p900 s900))
      "e02100" (List.zipWith (fun a b => wrapInt64 (a + b)) p210 s210))
      "e00600" (List.zipWith max d600 d650)) "e01500"
      (List.zipWith max d150 d170),
    constrain_data_run df p200 s200 p900 s900 p210 s210 d600 d650 d150 d170
      h1 h2 h3 h4 h5 h6 h7 h8 h9 h10,
    ?_, ?_, ?_, ?_, ?_, ?_, ?_,
    ?_,
    fun i x y hx hy => zipWith_max_le d600 d650 i x y hx hy,
    fun i x y hx hy => zipWith_max_le d150 d170 i x y hx hy⟩
  · rw [getCol_setCol_ne _ _ _ _ (by decide),
      getCol_setCol_ne _ _ _ _ (by decide),
      getCol_setCol_ne _ _ _ _ (by decide),
      getCol_setCol_ne _ _ _ _ (by decide), getCol_setCol_self]
  · rw [getCol_setCol_ne _ _ _ _ (by decide),
      getCol_setCol_ne _ _ _ _ (by decide),
      getCol_setCol_ne _ _ _ _ (by decide), getCol_setCol_self]
  · rw [getCol_setCol_ne _ _ _ _ (by decide),
      getCol_setCol_ne _ _ _ _ (by decide), getCol_setCol_self]
  · rw [getCol_setCol_ne _ _ _ _ (by decide), getCol_setCol_self]
  · rw [getCol_setCol_self]
  · rw [getCol_setCol_ne _ _ _ _ (by decide),
      getCol_setCol_ne _ _ _ _ (by decide),
      getCol_setCol_ne _ _ _ _ (by decide),
      getCol_setCol_ne _ _ _ _ (by decide),
      getCol_setCol_ne _ _ _ _ (by decide)]
    exact h8
  · rw [getCol_setCol_ne _ _ _ _ (by decide),
      getCol_setCol_ne _ _ _ _ (by decide),
      getCol_setCol_ne _ _ _ _ (by decide),
      getCol_setCol_ne _ _ _ _ (by decide),
      getCol_setCol_ne _ _ _ _ (by decide)]
    exact h10
  · intro i a b hai hbi hda hdb hlo hhi
    rw [zipWith_wrap_getElem p200 s200 i a b hai hbi,
      wrapInt64_exact a b hda hdb hlo hhi]

/-- Witness for C6: the concrete frame `constrainFrame` is repaired to
`constrainFrameOut` (`3 + 4 = 7` with no wrap since the sum is in range,
`max 2 9 = 9`, …). -/
theorem c6_witness :
    constrain_data false constrainFrame = some constrainFrameOut ∧
    (3 : ℚ) + 4 = 7 ∧ max (2 : ℚ) 9 = 9 := by
  obtain ⟨out, hrun, -, -, -, -, -, -, -, -, -, -⟩ := c6_theorem constrainFrame
    [3] [4] [1] [2] [5] [6] [2] [9] [8] [3]
    rfl rfl rfl rfl rfl rfl rfl rfl rfl rfl
  refine ⟨?_, by norm_num, by norm_num⟩
  with_unfolding_all decide

/-! ## Claim C10 (constraint repairer frame) -/

/-- Claim C10: `constrain_data` changes only the five repaired columns
`e00200`, `e00900`, `e02100`, `e00600`, `e01500`; every other column is left
exactly unchanged, and in debug mode nothing at all is changed. -/
theorem c10_theorem (df out : DataFrame)
    (h : constrain_data false df = some out) (name : String)
    (hname : name ∉
      (["e00200", "e00900", "e02100", "e00600", "e01500"] : List String)) :
    getCol out name = getCol df name ∧
    ∀ dfx : DataFrame, constrain_data true dfx = some dfx := by
  simp only [List.mem_cons, List.not_mem_nil, or_false, not_or] at hname
  obtain ⟨hn1, hn2, hn3, hn4, hn5⟩ := hname
  refine ⟨?_, fun dfx => rfl⟩
  simp only [constrain_data, Bool.false_eq_true, if_false,
    Option.bind_eq_bind, Option.bind_eq_some] at h
  obtain ⟨p200, -, s200, -, p900, -, s900, -, p210, -, s210, -, d600, -,
    d650, -, d150, -, d170, -, hout⟩ := h
  injection hout with hout
  subst hout
  rw [getCol_setCol_ne _ _ _ _ hn5, getCol_setCol_ne _ _ _ _ hn4,
    getCol_setCol_ne _ _ _ _ hn3, getCol_setCol_ne _ _ _ _ hn2,
    getCol_setCol_ne _ _ _ _ hn1]

/-- Witness for C10: the part column `e00200p` of the concrete frame is
untouched by the repair. -/
theorem c10_witness :
    getCol constrainFrameOut "e00200p" = some [(3 : ℚ)] := by
  have hrun : constrain_data false constrainFrame = some constrainFrameOut := by
    with_unfolding_all decide
  have h := c10_theorem constrainFrame constrainFrameOut hrun "e00200p"
    (by decide)
  exact h.1.trans rfl

/-! ## Claim C7 (sample size and error) -/

/-- Claim C7: outside debug mode, if the requested size is at most the row
count, the sampling step returns exactly `ssize` rows, drawn at `ssize`
distinct row indices (without replacement); if the requested size exceeds the
row count it fails (pandas ValueError), not producing a truncated sample. -/
theorem c7_theorem (df : DataFrame) (perm : List ℕ) (ssize : ℕ)
    (hlen : perm.length = numRows df) (hnd : perm.Nodup)
    (hbound : ∀ i ∈ perm, i < numRows df) :
    (ssize ≤ numRows df →
      ∃ out, mainSampleStep false perm ssize df = some out ∧
        numRows out = ssize ∧
        (perm.take ssize).length = ssize ∧
        (perm.take ssize).Nodup ∧
        (∀ i ∈ perm.take ssize, i < numRows df) ∧
        (∀ name vals, getCol df name = some vals → name ≠ "RECID" →
          getCol out name =
            some ((perm.take ssize).map (fun i => vals.getD i 0)))) ∧
    (numRows df < ssize → mainSampleStep false perm ssize df = none) := by
  constructor
  · intro hle
    have htl : (perm.take ssize).length = ssize := by
      rw [List.length_take, hlen]
      omega
    have htnd : (perm.take ssize).Nodup := (List.take_sublist _ _).nodup hnd
    have htb : ∀ i ∈ perm.take ssize, i < numRows df :=
      fun i hi => hbound i ((List.take_sublist _ _).subset hi)
    have hsample : sampleRows df ssize perm = some
        (df.map (fun c => (c.1, (perm.take ssize).map (fun i => c.2.getD i 0)))) := by
      unfold sampleRows
      rw [if_pos hle]
    refine ⟨setCol (df.map
        (fun c => (c.1, (perm.take ssize).map (fun i => c.2.getD i 0))))
        "RECID" ((List.range ssize).map (fun rid => ((rid : ℕ) : ℚ) + 1)),
      ?_, ?_, htl, htnd, htb, ?_⟩
    · unfold mainSampleStep
      rw [if_neg Bool.false_ne_true, hsample]
    · apply numRows_of_mem _ _ (setCol_ne_nil _ _ _)
      intro c hc
      rcases mem_setCol _ _ _ _ hc with heq | hc2
      · rw [heq]
        simp
      · rw [List.mem_map] at hc2
        obtain ⟨p, -, rfl⟩ := hc2
        show (List.map (fun i => p.2.getD i 0) (List.take ssize perm)).length =
          ssize
        rw [List.length_map, htl]
    · intro name vals hval hnr
      rw [getCol_setCol_ne _ _ _ _ hnr,
        getCol_map_vals (fun l => List.map (fun i => l.getD i 0)
          (List.take ssize perm)) name df, hval]
      rfl
  · intro hgt
    unfold mainSampleStep
    rw [if_neg Bool.false_ne_true]
    unfold sampleRows
    rw [if_neg (by omega)]

/-- Witness for C7: sampling 2 of 3 rows with the permutation `[2, 0, 1]`
keeps rows 2 and 0 and re-keys RECID to `[1, 2]`. -/
theorem c7_witness :
    mainSampleStep false [2, 0, 1] 2 [("e00600", [(10 : ℚ), 20, 30])] =
      some [("e00600", [(30 : ℚ), 10]), ("RECID", [(1 : ℚ), 2])] ∧
    mainSampleStep false [2, 0, 1] 4 [("e00600", [(10 : ℚ), 20, 30])] =
      none := by
  obtain ⟨hle, hgt⟩ := c7_theorem [("e00600", [(10 : ℚ), 20, 30])] [2, 0, 1] 2
    (by decide) (by decide) (by decide)
  obtain ⟨out, hout, -⟩ := hle (by decide)
  refine ⟨?_, ?_⟩
  · with_unfolding_all decide
  · have h4 := (c7_theorem [("e00600", [(10 : ℚ), 20, 30])] [2, 0, 1] 4
      (by decide) (by decide) (by decide)).2
    exact h4 (by decide)

/-! ## Claim C8 (command-line validation) -/

/-- Claim C8: YEAR, SEED and SIZE are range-checked independently — each
violation (and only a violation) puts its specific error line (naming the
argument and its valid range, see `renderErrLine`) on the error stream; if any
check failed, a usage reminder is printed, the pipeline does not run, and the
exit code is 1; if all checks pass, no error line is written and `main` runs,
its return code becoming the exit code. -/
theorem c8_theorem (year seed size mrc : ℤ) :
    ((ErrLine.yearErr year ∈ (cliMain year seed size mrc).errLines) ↔
      (year < 2013 ∨ year > MAX_YEAR)) ∧
    ((ErrLine.seedErr seed ∈ (cliMain year seed size mrc).errLines) ↔
      (seed < 1 ∨ seed > MAX_SEED)) ∧
    ((ErrLine.sizeErr size ∈ (cliMain year seed size mrc).errLines) ↔
      (size < 1 ∨ size > MAX_SIZE)) ∧
    (((year < 2013 ∨ year > MAX_YEAR) ∨ (seed < 1 ∨ seed > MAX_SEED) ∨
        (size < 1 ∨ size > MAX_SIZE)) →
      (cliMain year seed size mrc).rcode = 1 ∧
      (cliMain year seed size mrc).ranPipeline = false ∧
      ErrLine.usage ∈ (cliMain year seed size mrc).errLines) ∧
    (¬ ((year < 2013 ∨ year > MAX_YEAR) ∨ (seed < 1 ∨ seed > MAX_SEED) ∨
        (size < 1 ∨ size > MAX_SIZE)) →
      (cliMain year seed size mrc).rcode = mrc ∧
      (cliMain year seed size mrc).ranPipeline = true ∧
      (cliMain year seed size mrc).errLines = []) := by
  by_cases hy : year < 2013 ∨ year > MAX_YEAR <;>
    by_cases hs : seed < 1 ∨ seed > MAX_SEED <;>
      by_cases hz : size < 1 ∨ size > MAX_SIZE <;>
        simp [cliMain, Bool.or_eq_true, decide_eq_true_iff, hy, hs, hz]

/-- Witness for C8: YEAR 0 is rejected with exit code 1 and no pipeline run;
with all three arguments valid the pipeline runs and its code is returned. -/
theorem c8_witness :
    (cliMain 0 5 50 7).rcode = 1 ∧ (cliMain 0 5 50 7).ranPipeline = false ∧
    (cliMain 2013 5 50 7).rcode = 7 ∧ (cliMain 2013 5 50 7).ranPipeline = true := by
  have h := c8_theorem 0 5 50 7
  have h2 := c8_theorem 2013 5 50 7
  have hbad := h.2.2.2.1 (Or.inl (Or.inl (by norm_num)))
  have hgood := h2.2.2.2.2 (by decide)
  exact ⟨hbad.1, hbad.2.1, hgood.1, hgood.2.1⟩

/-! ## Claim C9 (configuration-name validation) -/

/-- Claim C9 counterexample: a skip-set name absent from the dataset is NOT a
fatal configuration error.  `noF6251Frame` lacks the skip variable `f6251`
(which the configuration references), yet the whole pipeline completes and
returns a dataset: the randomization loop iterates over the dataset columns
and simply never encounters the absent name.  (The registry parameter is
instantiated with the drop set itself, so every drop name passes the drop
check, as with the real `Records.USABLE_READ_VARS`.) -/
theorem c9_counterexample :
    "f6251" ∈ SKIP_VARS ∧
    getCol noF6251Frame "f6251" = none ∧
    (main_run DROP_VARS (fun _ => 0) [0] 2013 1 noF6251Frame).toOption.isSome =
      true := by
  refine ⟨by decide, by with_unfolding_all decide, ?_⟩
  with_unfolding_all decide

/-- Claim C9 (amended): only the DROP set is validated, and against the
downstream schema registry rather than the dataset: a drop name outside the
registry stops the run with the configuration message (and return code 1);
a SKIP-set name absent from the dataset is silently ignored — `randomize_data`
never fails and leaves the absent name absent. -/
theorem c9_theorem (usable : List String) (v : String) (rest : List String)
    (xdf : DataFrame) (hv : v ∉ usable) :
    mainDropLoop usable (v :: rest) xdf =
      Except.error ("ERROR: variable " ++ v ++ " already dropped") ∧
    ∀ (df : DataFrame) (ty : ℤ) (z : ℕ → ℚ) (name : String),
      name ∈ SKIP_VARS → name ≠ "FLPDYR" → getCol df name = none →
      getCol (randomize_data df ty z) name = none := by
  constructor
  · simp only [mainDropLoop]
    rw [if_neg hv]
  · intro df ty z name hmem hne hnone
    unfold randomize_data
    rw [getCol_randomizeCols_skip _ _ _ _ _ hmem, getCol_setCol_ne _ _ _ _ hne,
      hnone]

/-- Witness for C9: with an empty registry the first drop variable `filer` is
reported as a configuration error, and the absent skip variable `f6251` stays
absent (no error) through `randomize_data`. -/
theorem c9_witness :
    mainDropLoop [] ["filer"] [] =
      Except.error "ERROR: variable filer already dropped" ∧
    getCol (randomize_data [("e00200", [(1 : ℚ)])] 2013 (fun _ => 0))
      "f6251" = none := by
  have h := c9_theorem [] "filer" [] [] (by decide)
  exact ⟨h.1.trans (by rfl), h.2 [("e00200", [(1 : ℚ)])] 2013 (fun _ => 0)
    "f6251" (by decide) (by decide) rfl⟩

end CsvIn
